import Mathlib

/-!
Shallow embedding of three napari source files:
* `napari/_vispy/filters/tracks.py` — the `TracksFilter` vertex-shader alpha
  computation and the Python property setters/getters of the filter state;
* `napari/layers/tracks/_tracks_mouse_bindings.py` — the `interact` mouse
  callback, modelled as a trace of editing operations;
* `napari/layers/image/_image_slice_data.py` — the `ImageSliceData` holder.

GLSL floats are modelled as rationals (ℚ); machine floating point is not
modelled.  Note that in ℚ the Lean convention `x / 0 = 0` applies, so the
division-by-zero hazard in the shader is stated via the branch condition and
the denominator value, not via the quotient itself.
-/

namespace Napari

/-- GLSL `clamp(x, lo, hi)`. -/
def clampQ (x lo hi : ℚ) : ℚ := max lo (min x hi)

/-- Python `float(bool)`: the value a `bool` uniform takes in the shader. -/
def boolToFloat (b : Bool) : ℚ := if b then 1 else 0

/-- Shader constant `max_distance = 3` (tracks.py line 51). -/
def maxDistance : ℚ := 3

/-- Shader line 53: `float z_distance = ($current_z >= 0 ? max_distance : 1e10);`. -/
def zDistance (current_z : ℚ) : ℚ := if 0 ≤ current_z then maxDistance else 10000000000

/-- The condition of the hidden-vertex branch of `apply_track_shading`
(tracks.py lines 58–59): the vertex is ahead of the temporal window, or
interactive mode is on and the vertex is too far from the current z plane. -/
def hiddenCond (a_vertex_time a_vertex_z current_time current_z head_length
    inter_uniform : ℚ) : Prop :=
  a_vertex_time > current_time + head_length ∨
    (inter_uniform = 1 ∧ |current_z - a_vertex_z| > zDistance current_z)

instance (vt vz ct cz hl iu : ℚ) : Decidable (hiddenCond vt vz ct cz hl iu) := by
  unfold hiddenCond; infer_instance

/-- Shader lines 55–56: size attenuation by distance from the current z plane. -/
def sizeFactor (a_vertex_z current_z v_size : ℚ) : ℚ :=
  clampQ (1 - |current_z - a_vertex_z| / maxDistance) 0 1 * v_size

/-- The per-vertex alpha computed by `apply_track_shading` in
`TracksFilter.VERT_SHADER` (tracks.py lines 47–82).  The hidden branch sets
the sentinel `-100` for `a_vertex_time <= current_time + 1` and `0` beyond;
the visible branch fades linearly; finally `use_fade == 0` overrides alpha
to `1.0`. -/
def computeAlpha (a_vertex_time a_vertex_z current_time current_z tail_length
    head_length use_fade_uniform inter_uniform : ℚ) : ℚ :=
  let alpha : ℚ :=
    if hiddenCond a_vertex_time a_vertex_z current_time current_z head_length
        inter_uniform then
      if a_vertex_time ≤ current_time + 1 then -100 else 0
    else
      clampQ
        (1 - (head_length + current_time - a_vertex_time) / (tail_length + head_length))
        0 1
  if use_fade_uniform = 0 then 1 else alpha

/-- Filter state of `TracksFilter`: the Python private attributes together
with the shader uniforms written by the property setters.  The `vertex_time`
and `vertex_z` vertex buffers are not part of the claims and are omitted. -/
structure TracksFilter where
  _current_time : ℚ
  _current_z : Option ℚ
  _tail_length : ℚ
  _head_length : ℚ
  _use_fade : Bool
  _interactive : Bool
  u_current_time : ℚ
  u_current_z : ℚ
  u_tail_length : ℚ
  u_head_length : ℚ
  u_use_fade : ℚ
  u_interactive : ℚ
deriving DecidableEq

/-- `current_time` setter, scalar path (tracks.py lines 133–138; the
slice-typed overload, which reads the vertex-time buffer, is not modelled). -/
def set_current_time (st : TracksFilter) (n : ℚ) : TracksFilter :=
  { st with _current_time := n, u_current_time := n }

/-- `current_z` setter (tracks.py lines 144–150): `None` becomes `-1` in the
shader uniform. -/
def set_current_z (st : TracksFilter) (n : Option ℚ) : TracksFilter :=
  { st with _current_z := n,
            u_current_z := match n with | none => -1 | some z => z }

/-- `tail_length` setter (tracks.py lines 174–177). -/
def set_tail_length (st : TracksFilter) (v : ℚ) : TracksFilter :=
  { st with _tail_length := v, u_tail_length := v }

/-- `head_length` setter (tracks.py lines 183–186). -/
def set_head_length (st : TracksFilter) (v : ℚ) : TracksFilter :=
  { st with _head_length := v, u_head_length := v }

/-- `use_fade` setter (tracks.py lines 156–159). -/
def set_use_fade (st : TracksFilter) (b : Bool) : TracksFilter :=
  { st with _use_fade := b, u_use_fade := boolToFloat b }

/-- `interactive` setter (tracks.py lines 165–168). -/
def set_interactive (st : TracksFilter) (b : Bool) : TracksFilter :=
  { st with _interactive := b, u_interactive := boolToFloat b }

/-- `current_time` getter (tracks.py lines 129–131). -/
def get_current_time (st : TracksFilter) : ℚ := st._current_time

/-- `current_z` getter (tracks.py lines 140–142). -/
def get_current_z (st : TracksFilter) : Option ℚ := st._current_z

/-- `tail_length` getter (tracks.py lines 170–172). -/
def get_tail_length (st : TracksFilter) : ℚ := st._tail_length

/-- `head_length` getter (tracks.py lines 179–181): the source returns
`self._tail_length`, faithfully reproduced here. -/
def get_head_length (st : TracksFilter) : ℚ := st._tail_length

/-- `use_fade` getter (tracks.py lines 152–154). -/
def get_use_fade (st : TracksFilter) : Bool := st._use_fade

/-- `interactive` getter (tracks.py lines 161–163). -/
def get_interactive (st : TracksFilter) : Bool := st._interactive

/-- `TracksFilter.__init__` (tracks.py lines 104–127): every field is assigned
through its property setter, in source order, so every component of the state
is overwritten; the base record is arbitrary. -/
def mkTracksFilter (current_time : ℚ) (current_z : Option ℚ)
    (tail_length head_length : ℚ) (use_fade inter : Bool) : TracksFilter :=
  set_interactive
    (set_use_fade
      (set_head_length
        (set_tail_length
          (set_current_z
            (set_current_time
              ⟨0, none, 0, 0, false, false, 0, -1, 0, 0, 0, 0⟩ current_time)
            current_z)
          tail_length)
        head_length)
      use_fade)
    inter

/-- A `TracksFilter` built with the default constructor arguments
(tracks.py lines 106–111): `current_time=0, current_z=0, tail_length=30,
head_length=0, use_fade=True, interactive=False`. -/
def initFilter : TracksFilter := mkTracksFilter 0 (some 0) 30 0 true false

/-- One editing operation on the tracks layer, as the `interact` callback of
`_tracks_mouse_bindings.py` invokes them on the layer collaborator. -/
inductive TrackOp (Pos VertexId TrackId : Type) where
  | add (p : Pos) (tid : TrackId)
  | select (p : Pos)
  | remove (v : VertexId)
  | move (v : VertexId) (p : Pos)
  | join (a b : VertexId)
deriving DecidableEq

/-- The drag loop of the `Control` branch (lines 20–22 of the bindings file):
on each resumption the generator re-reads the event; while its type is
`mouse_move` it moves the selected vertex to the event position and yields
again, so exactly the leading run of `mouse_move` resume events produces a
`move` each. -/
def dragMoves {Pos VertexId TrackId : Type} (v : VertexId)
    (resumes : List (String × Pos)) : List (TrackOp Pos VertexId TrackId) :=
  (resumes.takeWhile (fun e => e.1 == "mouse_move")).map
    (fun e => TrackOp.move v e.2)

/-- The `interact` generator of `_tracks_mouse_bindings.py`, as a trace
semantics.  `sel` is `layer.select`, `current_track_id` is
`layer._current_track_id`, `selected_data` is `layer._selected_data` on
entry, `modifiers`/`position` come from the press event, and `resumes` lists
`(event.type, event.position)` at each resumption after a `yield`.  Returns
the list of layer editing calls in order and the final `_selected_data`. -/
def interact {Pos VertexId TrackId : Type} (sel : Pos → Option VertexId)
    (current_track_id : TrackId) (selected_data : Option VertexId)
    (modifiers : List String) (position : Pos) (resumes : List (String × Pos)) :
    List (TrackOp Pos VertexId TrackId) × Option VertexId :=
  if modifiers.length = 1 then
    if modifiers.head? = some "Shift" then
      ([TrackOp.add position current_track_id], selected_data)
    else if modifiers.head? = some "Alt" then
      match sel position with
      | some v => ([TrackOp.select position, TrackOp.remove v], selected_data)
      | none => ([TrackOp.select position], selected_data)
    else if modifiers.head? = some "Control" then
      match sel position with
      | none => ([TrackOp.select position], selected_data)
      | some v => (TrackOp.select position :: dragMoves v resumes, selected_data)
    else ([], selected_data)
  else if modifiers.length = 2 then
    if "Shift" ∈ modifiers ∧ "Control" ∈ modifiers then
      match selected_data, sel position with
      | none, s => ([TrackOp.select position], s)
      | some d, some s => ([TrackOp.select position, TrackOp.join d s], selected_data)
      | some _, none => ([TrackOp.select position], selected_data)
    else ([], selected_data)
  else ([], selected_data)

/-- `ImageSliceData` of `_image_slice_data.py`: `layer`, `indices`, `image`
and the optional `thumbnail_source` (Python `None` is `Option.none`).  Array
types are abstract. -/
structure ImageSliceData (L I A : Type) where
  layer : L
  indices : I
  image : A
  thumbnail_source : Option A
deriving DecidableEq

/-- `ImageSliceData.load_sync` (lines 42–47): `np.asarray` on `image`, and on
`thumbnail_source` when it is not `None`.  `asarray` abstracts `np.asarray`. -/
def load_sync {L I A : Type} (asarray : A → A) (d : ImageSliceData L I A) :
    ImageSliceData L I A :=
  { d with image := asarray d.image,
           thumbnail_source := d.thumbnail_source.map asarray }

/-- `ImageSliceData.transpose` (lines 49–60): `np.transpose(_, order)` on
`image`, and on `thumbnail_source` when it is not `None`.  `np_transpose`
abstracts `np.transpose`. -/
def transpose {L I A O : Type} (np_transpose : A → O → A) (order : O)
    (d : ImageSliceData L I A) : ImageSliceData L I A :=
  { d with image := np_transpose d.image order,
           thumbnail_source := d.thumbnail_source.map (np_transpose · order) }

lemma clampQ_eq_self {x : ℚ} (h0 : 0 ≤ x) (h1 : x ≤ 1) : clampQ x 0 1 = x := by
  unfold clampQ
  rw [min_eq_left h1, max_eq_right h0]

lemma computeAlpha_hidden (vt vz ct cz tl hl iu : ℚ)
    (hh : hiddenCond vt vz ct cz hl iu) :
    computeAlpha vt vz ct cz tl hl (boolToFloat true) iu
      = if vt ≤ ct + 1 then -100 else 0 := by
  simp only [computeAlpha, boolToFloat, if_true, one_ne_zero, if_neg, if_pos hh]
  simp

lemma computeAlpha_visible (vt vz ct cz tl hl iu : ℚ)
    (hnh : ¬ hiddenCond vt vz ct cz hl iu) :
    computeAlpha vt vz ct cz tl hl (boolToFloat true) iu
      = clampQ (1 - (hl + ct - vt) / (tl + hl)) 0 1 := by
  simp only [computeAlpha, boolToFloat, if_true, if_neg hnh]
  simp

lemma one_sub_fade_eq (vt ct tl hl : ℚ) (hsum : tl + hl ≠ 0) :
    1 - (hl + ct - vt) / (tl + hl) = (tl + (vt - ct)) / (tl + hl) := by
  field_simp
  ring

/-- C1 counterexample: with `use_fade` false, a vertex strictly ahead of
`current_time + head_length` still gets alpha `1`, a positive value, so the
claim fails for that valuation of the other parameters. -/
theorem future_vertex_positive_alpha_cex :
    (0:ℚ) + 0 < 10 ∧
    computeAlpha 10 0 0 0 5 0 (boolToFloat false) 0 = 1 ∧ (0:ℚ) < 1 := by
  refine ⟨by norm_num, ?_, by norm_num⟩
  norm_num [computeAlpha, boolToFloat]

/-- C1 (amended): when `use_fade` is true, every vertex with
`vertex_time > current_time + head_length` gets the sentinel `-100` exactly
when `vertex_time ≤ current_time + 1` and `0` otherwise, hence never a
positive alpha, for all remaining parameters. -/
theorem future_vertex_hidden_or_zero (vt vz ct cz tl hl iu : ℚ)
    (h : ct + hl < vt) :
    computeAlpha vt vz ct cz tl hl (boolToFloat true) iu
      = (if vt ≤ ct + 1 then -100 else 0) ∧
    computeAlpha vt vz ct cz tl hl (boolToFloat true) iu ≤ 0 := by
  have hh : hiddenCond vt vz ct cz hl iu := Or.inl h
  have he := computeAlpha_hidden vt vz ct cz tl hl iu hh
  refine ⟨he, ?_⟩
  rw [he]
  split <;> norm_num

/-- Witness for C1 (amended) at `vertex_time = 10`, `current_time = 0`,
`head_length = 0`, `tail_length = 5`. -/
theorem future_vertex_hidden_or_zero_witness :
    (0:ℚ) + 0 < 10 ∧
    (computeAlpha 10 0 0 0 5 0 (boolToFloat true) 0
        = (if (10:ℚ) ≤ 0 + 1 then -100 else 0) ∧
      computeAlpha 10 0 0 0 5 0 (boolToFloat true) 0 ≤ 0) :=
  ⟨by norm_num, future_vertex_hidden_or_zero 10 0 0 0 5 0 0 (by norm_num)⟩

/-- C3: with `use_fade` false the shader overrides alpha to `1.0` in every
case, whatever the time, depth, window and interactivity parameters are. -/
theorem use_fade_off_alpha_one (vt vz ct cz tl hl iu : ℚ) :
    computeAlpha vt vz ct cz tl hl (boolToFloat false) iu = 1 := by
  norm_num [computeAlpha, boolToFloat]

/-- C6: with `interactive` false, the computed alpha does not depend on the
vertex depth or the current depth: any two depth valuations give the same
alpha when the temporal parameters agree. -/
theorem noninteractive_alpha_depth_independent (vt ct tl hl uf vz cz vz' cz' : ℚ) :
    computeAlpha vt vz ct cz tl hl uf (boolToFloat false)
      = computeAlpha vt vz' ct cz' tl hl uf (boolToFloat false) := by
  norm_num [computeAlpha, hiddenCond, boolToFloat]

/-- C2: a vertex inside the window (`vertex_time ≤ current_time + head_length`
and not depth-culled), with `use_fade` true and a nonzero window sum, gets
`alpha = clamp(1 - (head_length + current_time - vertex_time)/(tail_length +
head_length), 0, 1)`; at `vertex_time = current_time + head_length` this is
exactly `1`, and at `vertex_time = current_time - tail_length` exactly `0`. -/
theorem visible_vertex_fade_formula (vt vz ct cz tl hl iu : ℚ)
    (htime : vt ≤ ct + hl)
    (hdepth : ¬(iu = 1 ∧ |cz - vz| > zDistance cz))
    (hsum : tl + hl ≠ 0) :
    computeAlpha vt vz ct cz tl hl (boolToFloat true) iu
      = clampQ (1 - (hl + ct - vt) / (tl + hl)) 0 1 ∧
    (vt = ct + hl →
      computeAlpha vt vz ct cz tl hl (boolToFloat true) iu = 1) ∧
    (vt = ct - tl →
      computeAlpha vt vz ct cz tl hl (boolToFloat true) iu = 0) := by
  have hnh : ¬ hiddenCond vt vz ct cz hl iu := by
    intro hcase
    rcases hcase with hgt | hz
    · exact absurd htime (not_le.mpr hgt)
    · exact hdepth hz
  have he := computeAlpha_visible vt vz ct cz tl hl iu hnh
  refine ⟨he, ?_, ?_⟩
  · intro hb
    rw [he, hb]
    have h0 : hl + ct - (ct + hl) = 0 := by ring
    rw [h0, zero_div, sub_zero]
    norm_num [clampQ]
  · intro hb
    rw [he, hb]
    have h1 : hl + ct - (ct - tl) = tl + hl := by ring
    rw [h1, div_self hsum, sub_self]
    norm_num [clampQ]

/-- Witness for C2 at `current_time = 10`, `tail_length = 5`,
`head_length = 2`, `vertex_time = 12`, non-interactive, zero depths. -/
theorem visible_vertex_fade_formula_witness :
    ((12:ℚ) ≤ 10 + 2) ∧ ¬((0:ℚ) = 1 ∧ |(0:ℚ) - 0| > zDistance 0) ∧
    ((5:ℚ) + 2 ≠ 0) ∧
    (computeAlpha 12 0 10 0 5 2 (boolToFloat true) 0
        = clampQ (1 - (2 + 10 - 12) / (5 + 2)) 0 1 ∧
      ((12:ℚ) = 10 + 2 →
        computeAlpha 12 0 10 0 5 2 (boolToFloat true) 0 = 1) ∧
      ((12:ℚ) = 10 - 5 →
        computeAlpha 12 0 10 0 5 2 (boolToFloat true) 0 = 0)) :=
  ⟨by norm_num, by norm_num, by norm_num,
    visible_vertex_fade_formula 12 0 10 0 5 2 0 (by norm_num) (by norm_num)
      (by norm_num)⟩

/-- C5: for two vertices strictly inside the open window, not depth-culled,
with `use_fade` true and a positive window sum, both alphas are strictly
between `0` and `1` and the vertex with the smaller time has the strictly
smaller alpha. -/
theorem fade_alpha_strict_monotone (vt1 vt2 vz1 vz2 ct cz tl hl iu : ℚ)
    (hsum : 0 < tl + hl)
    (hd1 : ¬(iu = 1 ∧ |cz - vz1| > zDistance cz))
    (hd2 : ¬(iu = 1 ∧ |cz - vz2| > zDistance cz))
    (hlo1 : ct - tl < vt1) (hhi1 : vt1 < ct + hl)
    (hlo2 : ct - tl < vt2) (hhi2 : vt2 < ct + hl)
    (hlt : vt1 < vt2) :
    (0 < computeAlpha vt1 vz1 ct cz tl hl (boolToFloat true) iu ∧
      computeAlpha vt1 vz1 ct cz tl hl (boolToFloat true) iu < 1) ∧
    (0 < computeAlpha vt2 vz2 ct cz tl hl (boolToFloat true) iu ∧
      computeAlpha vt2 vz2 ct cz tl hl (boolToFloat true) iu < 1) ∧
    computeAlpha vt1 vz1 ct cz tl hl (boolToFloat true) iu
      < computeAlpha vt2 vz2 ct cz tl hl (boolToFloat true) iu := by
  have hsum' : tl + hl ≠ 0 := ne_of_gt hsum
  have key : ∀ vt vz : ℚ, ¬(iu = 1 ∧ |cz - vz| > zDistance cz) →
      ct - tl < vt → vt < ct + hl →
      computeAlpha vt vz ct cz tl hl (boolToFloat true) iu
        = (tl + (vt - ct)) / (tl + hl) ∧
      0 < (tl + (vt - ct)) / (tl + hl) ∧ (tl + (vt - ct)) / (tl + hl) < 1 := by
    intro vt vz hd hlo hhi
    have hnh : ¬ hiddenCond vt vz ct cz hl iu := by
      intro hcase
      rcases hcase with hgt | hz
      · exact absurd hhi (not_lt.mpr (le_of_lt hgt))
      · exact hd hz
    have hnum0 : 0 < tl + (vt - ct) := by linarith
    have hnum1 : tl + (vt - ct) < tl + hl := by linarith
    have hpos : 0 < (tl + (vt - ct)) / (tl + hl) := div_pos hnum0 hsum
    have hlt1 : (tl + (vt - ct)) / (tl + hl) < 1 := (div_lt_one hsum).mpr hnum1
    have he := computeAlpha_visible vt vz ct cz tl hl iu hnh
    rw [one_sub_fade_eq vt ct tl hl hsum'] at he
    rw [clampQ_eq_self (le_of_lt hpos) (le_of_lt hlt1)] at he
    exact ⟨he, hpos, hlt1⟩
  obtain ⟨he1, hp1, hl1⟩ := key vt1 vz1 hd1 hlo1 hhi1
  obtain ⟨he2, hp2, hl2⟩ := key vt2 vz2 hd2 hlo2 hhi2
  refine ⟨⟨by rw [he1]; exact hp1, by rw [he1]; exact hl1⟩,
    ⟨by rw [he2]; exact hp2, by rw [he2]; exact hl2⟩, ?_⟩
  rw [he1, he2]
  have hnumlt : tl + (vt1 - ct) < tl + (vt2 - ct) := by linarith
  exact (div_lt_div_iff_of_pos_right hsum).mpr hnumlt

/-- Witness for C5 at `current_time = 10`, `tail_length = 5`,
`head_length = 2`, vertex times `8 < 9`, zero depths, non-interactive. -/
theorem fade_alpha_strict_monotone_witness :
    (0:ℚ) < 5 + 2 ∧ ((10:ℚ) - 5 < 8) ∧ ((8:ℚ) < 10 + 2) ∧ ((8:ℚ) < 9) ∧
    ((0 < computeAlpha 8 0 10 0 5 2 (boolToFloat true) 0 ∧
       computeAlpha 8 0 10 0 5 2 (boolToFloat true) 0 < 1) ∧
     (0 < computeAlpha 9 0 10 0 5 2 (boolToFloat true) 0 ∧
       computeAlpha 9 0 10 0 5 2 (boolToFloat true) 0 < 1) ∧
     computeAlpha 8 0 10 0 5 2 (boolToFloat true) 0
       < computeAlpha 9 0 10 0 5 2 (boolToFloat true) 0) :=
  ⟨by norm_num, by norm_num, by norm_num, by norm_num,
    fade_alpha_strict_monotone 8 9 0 0 10 0 5 2 0 (by norm_num) (by norm_num)
      (by norm_num) (by norm_num) (by norm_num) (by norm_num) (by norm_num)
      (by norm_num)⟩

/-- The filter state reached by setting `tail_length = 0` and
`head_length = 0` on a default-constructed `TracksFilter`. -/
def zeroWindowFilter : TracksFilter :=
  set_head_length (set_tail_length initFilter 0) 0

/-- C4 refutation of the guard: the setters accept `tail_length = 0` and
`head_length = 0` verbatim while `use_fade` stays enabled, and for a vertex
at the current time the shader takes the fade branch (the hidden condition
is false), whose division then has the zero denominator
`tail_length + head_length`; no special case intervenes. -/
theorem fade_division_by_zero_reachable :
    zeroWindowFilter.u_tail_length + zeroWindowFilter.u_head_length = 0 ∧
    zeroWindowFilter.u_use_fade = 1 ∧
    ¬ hiddenCond 0 0 zeroWindowFilter.u_current_time
        zeroWindowFilter.u_current_z zeroWindowFilter.u_head_length
        zeroWindowFilter.u_interactive := by
  have h1 : zeroWindowFilter.u_tail_length = 0 := rfl
  have h2 : zeroWindowFilter.u_head_length = 0 := rfl
  have h3 : zeroWindowFilter.u_use_fade = 1 := rfl
  have h4 : zeroWindowFilter.u_current_time = 0 := rfl
  have h5 : zeroWindowFilter.u_current_z = 0 := rfl
  have h6 : zeroWindowFilter.u_interactive = 0 := rfl
  rw [h1, h2, h3, h4, h5, h6]
  norm_num [hiddenCond]

/-- C7 failing input: after `head_length = 5` is assigned on a
default-constructed filter, the `head_length` property reads back `30` (the
stored `_tail_length`), not `5`, even though the private attribute and the
shader uniform were updated correctly. -/
theorem head_length_roundtrip_broken :
    get_head_length (set_head_length initFilter 5) = 30 ∧
    (set_head_length initFilter 5)._head_length = 5 ∧
    (set_head_length initFilter 5).u_head_length = 5 ∧ (5:ℚ) ≠ 30 :=
  ⟨rfl, rfl, rfl, by norm_num⟩

/-- C8 counterexample: the `tail_length` setter stores a negative value
unchanged, so the non-negativity invariant is not preserved by the
parameter-setting operations. -/
theorem negative_tail_length_accepted :
    get_tail_length (set_tail_length initFilter (-5)) = -5 ∧ (-5:ℚ) < 0 :=
  ⟨rfl, by norm_num⟩

/-- C8 (amended): after construction with the default arguments both lengths
are non-negative, and since the setters store the assigned value verbatim the
invariant is preserved by any setter call whose argument is non-negative. -/
theorem tail_head_nonneg_from_defaults (st : TracksFilter) (v : ℚ)
    (hv : 0 ≤ v) :
    0 ≤ initFilter._tail_length ∧ 0 ≤ initFilter._head_length ∧
    0 ≤ (set_tail_length st v)._tail_length ∧
    0 ≤ (set_head_length st v)._head_length := by
  have ht : initFilter._tail_length = 30 := rfl
  have hh : initFilter._head_length = 0 := rfl
  have hst : (set_tail_length st v)._tail_length = v := rfl
  have hsh : (set_head_length st v)._head_length = v := rfl
  rw [ht, hh, hst, hsh]
  exact ⟨by norm_num, le_refl 0, hv, hv⟩

/-- Witness for C8 (amended) at the default filter and the value `3`. -/
theorem tail_head_nonneg_from_defaults_witness :
    (0:ℚ) ≤ 3 ∧
    (0 ≤ initFilter._tail_length ∧ 0 ≤ initFilter._head_length ∧
      0 ≤ (set_tail_length initFilter 3)._tail_length ∧
      0 ≤ (set_head_length initFilter 3)._head_length) :=
  ⟨by norm_num, tail_head_nonneg_from_defaults initFilter 3 (by norm_num)⟩

/-- C9: with exactly one modifier, `Shift` adds at the press position with
the current track id; `Alt` selects and then removes exactly when a vertex
was selected; `Control` selects and, when a vertex was selected, moves it on
each leading `mouse_move` resumption; `_selected_data` is untouched and no
`join` (nor any other editing call) occurs in these cases. -/
theorem single_modifier_dispatch {Pos VertexId TrackId : Type}
    (sel : Pos → Option VertexId) (tid : TrackId) (sd : Option VertexId)
    (pos : Pos) (resumes : List (String × Pos)) :
    interact sel tid sd ["Shift"] pos resumes
      = ([TrackOp.add pos tid], sd) ∧
    interact sel tid sd ["Alt"] pos resumes
      = ((match sel pos with
          | some v => [TrackOp.select pos, TrackOp.remove v]
          | none => [TrackOp.select pos]), sd) ∧
    interact sel tid sd ["Control"] pos resumes
      = ((match sel pos with
          | none => [TrackOp.select pos]
          | some v => TrackOp.select pos :: dragMoves v resumes), sd) ∧
    (∀ a b : VertexId,
      TrackOp.join a b ∉ (interact sel tid sd ["Shift"] pos resumes).1 ∧
      TrackOp.join a b ∉ (interact sel tid sd ["Alt"] pos resumes).1 ∧
      TrackOp.join a b ∉ (interact sel tid sd ["Control"] pos resumes).1) := by
  have hShift : interact sel tid sd ["Shift"] pos resumes
      = ([TrackOp.add pos tid], sd) := by
    simp [interact]
  have hAlt : interact sel tid sd ["Alt"] pos resumes
      = ((match sel pos with
          | some v => [TrackOp.select pos, TrackOp.remove v]
          | none => [TrackOp.select pos]), sd) := by
    rcases h : sel pos with _ | v <;> simp [interact, h]
  have hCtrl : interact sel tid sd ["Control"] pos resumes
      = ((match sel pos with
          | none => [TrackOp.select pos]
          | some v => TrackOp.select pos :: dragMoves v resumes), sd) := by
    rcases h : sel pos with _ | v <;> simp [interact, h]
  refine ⟨hShift, hAlt, hCtrl, ?_⟩
  intro a b
  rw [hShift, hAlt, hCtrl]
  refine ⟨by simp, ?_, ?_⟩ <;> rcases sel pos with _ | v <;>
    simp [dragMoves, List.mem_map]

/-- Witness for C9 on a concrete drag: `Control` with a selected vertex `7`
moves it on the leading `mouse_move` resumption and stops at the release. -/
theorem single_modifier_dispatch_witness :
    interact (fun _ : ℕ => some 7) 3 (none : Option ℕ) ["Control"] 0
        [("mouse_move", 1), ("mouse_up", 2)]
      = (TrackOp.select 0 ::
          dragMoves 7 [("mouse_move", 1), ("mouse_up", 2)], none) :=
  (single_modifier_dispatch (fun _ : ℕ => some 7) 3 none 0
      [("mouse_move", 1), ("mouse_up", 2)]).2.2.1

/-- C10: `load_sync` and `transpose` leave `layer` and `indices` unchanged,
and when `thumbnail_source` is `None` both keep it `None` and rewrite only
`image` (with `np.asarray` and `np.transpose` respectively). -/
theorem slice_data_frame {L I A O : Type} (asarray : A → A)
    (np_transpose : A → O → A) (order : O) (d : ImageSliceData L I A) :
    (load_sync asarray d).layer = d.layer ∧
    (load_sync asarray d).indices = d.indices ∧
    (transpose np_transpose order d).layer = d.layer ∧
    (transpose np_transpose order d).indices = d.indices ∧
    (d.thumbnail_source = none →
      (load_sync asarray d).thumbnail_source = none ∧
      (load_sync asarray d).image = asarray d.image ∧
      (transpose np_transpose order d).thumbnail_source = none ∧
      (transpose np_transpose order d).image = np_transpose d.image order) := by
  refine ⟨rfl, rfl, rfl, rfl, fun h => ⟨?_, rfl, ?_, rfl⟩⟩ <;>
    simp [load_sync, transpose, h]

/-- Witness for C10 on a concrete slice with no thumbnail source. -/
theorem slice_data_frame_witness :
    ((⟨0, 1, 2, none⟩ : ImageSliceData ℕ ℕ ℕ).thumbnail_source = none) ∧
    (load_sync (fun a => a + 1)
        (⟨0, 1, 2, none⟩ : ImageSliceData ℕ ℕ ℕ)).thumbnail_source = none ∧
    (load_sync (fun a => a + 1)
        (⟨0, 1, 2, none⟩ : ImageSliceData ℕ ℕ ℕ)).image = 2 + 1 :=
  ⟨rfl,
    ((slice_data_frame (fun a => a + 1) (fun (a : ℕ) (_ : ℕ) => a) 0
        ⟨0, 1, 2, none⟩).2.2.2.2 rfl).1,
    ((slice_data_frame (fun a => a + 1) (fun (a : ℕ) (_ : ℕ) => a) 0
        ⟨0, 1, 2, none⟩).2.2.2.2 rfl).2.1⟩

end Napari
